import Mathlib

/-!
Verification of the behavior-tree runtime core of the `golem` project:
a shallow embedding of `src/runtime/forester/flow.rs` and
`src/runtime/context.rs`, together with theorems about the flow logic
(`finalize`, `monitor`, `read_cursor`) and the tree context
(`state_in_ts`, `next_tick`).

Machine integers (`i64`) are modelled as `Int`; the only place where the
machine width matters is the `as usize` cast, modelled explicitly by
`i64_to_usize`.  A Rust panic is modelled as `Option.none`; a recoverable
`RuntimeError` is modelled with `Except`.
-/

namespace Golem

/-- Modelled from the spec: the tagged runtime value type `RtValue`
(`src/runtime/args.rs` is not part of the covered sources).  The spec
describes values as tagged int, float, bool, string, array, object,
pointer-to-tree; only the tags used by the flow logic are needed here. -/
inductive RtValue where
  | int (v : Int)
  | str (s : String)
  | bool (b : Bool)
  | array (xs : List RtValue)
deriving Repr

/-- Modelled from the spec: `RtValue::as_int` — the int payload, if the tag is int. -/
def RtValue.as_int : RtValue → Option Int
  | RtValue.int v => some v
  | _ => none

/-- Modelled from the spec: `RtValue::as_string` — the string payload, if the tag is string. -/
def RtValue.as_string : RtValue → Option String
  | RtValue.str s => some s
  | _ => none

/-- Modelled from the spec: `RtArgs` is an ordered sequence of
`(name, RtValue)` pairs. -/
structure RtArgs where
  items : List (String × RtValue)
deriving Repr

/-- Modelled from the spec: `RtArgs::default()` is the empty bag. -/
def RtArgs.default : RtArgs := RtArgs.mk []

/-- Modelled from the spec: `find(name)` returns the first match. -/
def RtArgs.find (args : RtArgs) (name : String) : Option RtValue :=
  (args.items.find? (fun p => p.1 == name)).map Prod.snd

/-- Modelled from the spec: `with(name, v)` is replace-or-append preserving
the position of existing entries.  (`with` is a Lean keyword, hence `with'`.) -/
def RtArgs.with' (args : RtArgs) (name : String) (v : RtValue) : RtArgs :=
  if args.items.any (fun p => p.1 == name) then
    RtArgs.mk (args.items.map (fun p => if p.1 == name then (name, v) else p))
  else
    RtArgs.mk (args.items ++ [(name, v)])

/-- Modelled from the spec: `remove(name)` drops entries by name. -/
def RtArgs.remove (args : RtArgs) (name : String) : RtArgs :=
  RtArgs.mk (args.items.filter (fun p => !(p.1 == name)))

/-- The Rust `i64 as usize` cast (64-bit platform): two's-complement wrap. -/
def i64_to_usize (i : Int) : Nat := (i % (2 : Int) ^ 64).toNat

/-- `RuntimeError` (the variants relevant to the covered sources). -/
inductive RuntimeError where
  | uex (s : String)
  | Stopped (s : String)
deriving Repr

/-- `RtResult<T>` from the runtime. -/
abbrev RtResult (α : Type) := Except RuntimeError α

/-- `TickResult` — the public outcome of ticking a node. -/
inductive TickResult where
  | Success
  | Failure (v : String)
  | Running
deriving Repr

/-- `FlowType` — the composite node kinds (`src/runtime/rtree/rnode.rs`). -/
inductive FlowType where
  | Root
  | Sequence
  | MSequence
  | RSequence
  | Fallback
  | RFallback
  | Parallel
deriving Repr, DecidableEq

/-- `RNodeState` — the current state of a node, carrying its `RtArgs` memory
(`src/runtime/context.rs`). -/
inductive RNodeState where
  | Ready (args : RtArgs)
  | Running (args : RtArgs)
  | Success (args : RtArgs)
  | Failure (args : RtArgs)
deriving Repr

/-- `RNodeState::args` — the args payload of any state. -/
def RNodeState.args : RNodeState → RtArgs
  | RNodeState.Ready a => a
  | RNodeState.Running a => a
  | RNodeState.Success a => a
  | RNodeState.Failure a => a

-- Flow-level argument names (`src/runtime/forester/flow.rs`).
def CURSOR : String := "cursor"
def LEN : String := "len"
def P_CURSOR : String := "prev_cursor"
def REASON : String := "reason"
def CHILDREN : String := "children"

/-- `run_with` — stamps `cursor` and `len` into the tick args. -/
def run_with (tick_args : RtArgs) (cursor len : Int) : RtArgs :=
  (tick_args.with' CURSOR (RtValue.int cursor)).with' LEN (RtValue.int len)

/-- `read_len_or_zero`. -/
def read_len_or_zero (args : RtArgs) : Int :=
  (((args.find LEN).bind RtValue.as_int)).getD 0

/-- `read_cursor` — reads and compares `cursor` and `prev_cursor`.
(The Rust local called `p_cursor` holds the `cursor` entry and vice versa;
the embedding keeps the source's bindings.) -/
def read_cursor (tick_args : RtArgs) : RtResult Int :=
  let p_cursor := (tick_args.find CURSOR).bind RtValue.as_int
  let cursor := (tick_args.find P_CURSOR).bind RtValue.as_int
  match cursor, p_cursor with
  | some lhs, some rhs => Except.ok (max lhs rhs)
  | none, some v => Except.ok v
  | some v, none => Except.ok v
  | _, _ => Except.ok 0

/-- `TickResultFin` — finished statuses only. -/
inductive TickResultFin where
  | Failure (v : String)
  | Success
deriving Repr

/-- `impl Into<TickResult> for TickResultFin`. -/
def TickResultFin.into : TickResultFin → TickResult
  | TickResultFin.Failure v => TickResult.Failure v
  | TickResultFin.Success => TickResult.Success

/-- `RNodeState::from` (`from` is a Lean keyword, hence `from'`). -/
def RNodeState.from' (tick_args : RtArgs) (res : TickResult) : RNodeState :=
  match res with
  | TickResult.Success => RNodeState.Success tick_args
  | TickResult.Failure v => RNodeState.Failure (tick_args.with' REASON (RtValue.str v))
  | TickResult.Running => RNodeState.Running tick_args

/-- `FlowDecision` — stay on the node or climb up the tree. -/
inductive FlowDecision where
  | PopNode (s : RNodeState)
  | Stay (s : RNodeState)
deriving Repr

/-- `read_children_state` — `args.find(CHILDREN).and_then(|v| v.as_vec(|v| v.as_int().unwrap())).unwrap_or_default()`.
`as_vec` (modelled from the spec) maps over array elements and is `None` on
any other tag; the inner `unwrap` panics on a non-int element, modelled by
`Option.none` of the whole call. -/
def read_children_state (args : RtArgs) : Option (List Int) :=
  match args.find CHILDREN with
  | some (RtValue.array xs) => xs.mapM RtValue.as_int
  | some _ => some []
  | none => some []

/-- `replace_child_state` — `elems[idx] = v` panics when `idx` is out of
bounds, modelled by `Option.none`. -/
def replace_child_state (args : RtArgs) (idx : Nat) (v : Int) : Option RtArgs :=
  match read_children_state args with
  | none => none
  | some elems =>
    if idx < elems.length then
      some (args.with' CHILDREN (RtValue.array ((elems.set idx v).map RtValue.int)))
    else none

/-- The loop body of `find_pos`: scan from `cursor` up to (excluding) `high`
for a child status equal to 0 or 1.  Out-of-range reads never happen at the
call sites (the scan bound is at most the array length), so the default
`-1` of `getD` is never produced. -/
def find_pos_go (children : List Int) (cursor high : Nat) : Option Nat :=
  if h : cursor < high then
    if children.getD cursor (-1) = 0 ∨ children.getD cursor (-1) = 1 then
      some cursor
    else find_pos_go children (cursor + 1) high
  else none
termination_by high - cursor
decreasing_by omega

/-- `find_pos(children, low, high)` — `low as usize` / `high as usize` scan. -/
def find_pos (children : List Int) (low high : Int) : Option Nat :=
  find_pos_go children (i64_to_usize low) (i64_to_usize high)

/-- `find_next_idx` — next ready-or-running index strictly after `current`. -/
def find_next_idx (children : List Int) (current : Int) : Option Nat :=
  find_pos children (current + 1) (children.length : Int)

/-- `find_first_idx` — first ready-or-running index strictly before `current`. -/
def find_first_idx (children : List Int) (current : Int) : Option Nat :=
  find_pos children 0 current

/-- `finalize` — flow decision when a child finished.  `Option.none` models a
panic; `Except.error` models a returned `RuntimeError`.  The unused `_args`
and `_ctx` parameters of the source are omitted. -/
def finalize (tpe : FlowType) (tick_args : RtArgs) (res : TickResultFin) :
    Option (RtResult FlowDecision) :=
  match tpe with
  | FlowType.Root =>
    some (Except.ok (FlowDecision.Stay (RNodeState.from' (run_with tick_args 0 1) res.into)))
  | FlowType.Sequence | FlowType.RSequence =>
    match read_cursor tick_args with
    | Except.error e => some (Except.error e)
    | Except.ok cursor =>
      let len := read_len_or_zero tick_args
      match res with
      | TickResultFin.Failure v =>
        let args := (tick_args.remove P_CURSOR).with' REASON (RtValue.str v)
        some (Except.ok (FlowDecision.Stay (RNodeState.Failure (run_with args cursor len))))
      | TickResultFin.Success =>
        if cursor = len - 1 then
          let args := tick_args.remove P_CURSOR
          some (Except.ok (FlowDecision.Stay (RNodeState.Success (run_with args cursor len))))
        else
          some (Except.ok (FlowDecision.Stay (RNodeState.Running (run_with tick_args (cursor + 1) len))))
  | FlowType.MSequence =>
    match read_cursor tick_args with
    | Except.error e => some (Except.error e)
    | Except.ok cursor =>
      let len := read_len_or_zero tick_args
      match res with
      | TickResultFin.Failure v =>
        let args := (run_with (tick_args.with' P_CURSOR (RtValue.int cursor)) cursor len).with'
          REASON (RtValue.str v)
        some (Except.ok (FlowDecision.Stay (RNodeState.Failure args)))
      | TickResultFin.Success =>
        if cursor = len - 1 then
          let args := tick_args.remove P_CURSOR
          some (Except.ok (FlowDecision.Stay (RNodeState.Success (run_with args cursor len))))
        else
          some (Except.ok (FlowDecision.Stay (RNodeState.Running (run_with tick_args (cursor + 1) len))))
  | FlowType.Fallback | FlowType.RFallback =>
    match read_cursor tick_args with
    | Except.error e => some (Except.error e)
    | Except.ok cursor =>
      let len := read_len_or_zero tick_args
      match res with
      | TickResultFin.Failure v =>
        if cursor = len - 1 then
          let args := (tick_args.remove P_CURSOR).with' REASON (RtValue.str v)
          some (Except.ok (FlowDecision.Stay (RNodeState.Failure (run_with args cursor len))))
        else
          some (Except.ok (FlowDecision.Stay (RNodeState.Running (run_with tick_args (cursor + 1) len))))
      | TickResultFin.Success =>
        let args := tick_args.remove P_CURSOR
        some (Except.ok (FlowDecision.Stay (RNodeState.Success (run_with args cursor len))))
  | FlowType.Parallel =>
    match read_cursor tick_args with
    | Except.error e => some (Except.error e)
    | Except.ok cursor =>
      let len := read_len_or_zero tick_args
      let st : Int := match res with
        | TickResultFin.Failure _ => 2
        | TickResultFin.Success => 3
      match replace_child_state tick_args (i64_to_usize cursor) st with
      | none => none
      | some tick_args =>
        match read_children_state tick_args with
        | none => none
        | some children =>
          match find_next_idx children cursor with
          | some idx =>
            some (Except.ok (FlowDecision.Stay (RNodeState.Running
              (tick_args.with' CURSOR (RtValue.int (idx : Int))))))
          | none =>
            if children.contains 1 || children.contains 0 then
              let next_cursor := (find_first_idx children cursor).getD 0
              some (Except.ok (FlowDecision.PopNode (RNodeState.Running
                ((run_with tick_args (next_cursor : Int) len).with' P_CURSOR (RtValue.int 0)))))
            else if children.contains 2 then
              some (Except.ok (FlowDecision.Stay (RNodeState.Failure
                (((run_with tick_args cursor len).with' REASON
                  (RtValue.str ("parallel failure"))).remove CHILDREN))))
            else
              some (Except.ok (FlowDecision.Stay (RNodeState.Success
                ((run_with tick_args cursor len).remove CHILDREN))))

/-- `monitor` — flow decision when a descendant returned `Running`. -/
def monitor (tpe : FlowType) (tick_args : RtArgs) : Option (RtResult FlowDecision) :=
  match tpe with
  | FlowType.Sequence | FlowType.MSequence | FlowType.Fallback =>
    match read_cursor tick_args with
    | Except.error e => some (Except.error e)
    | Except.ok cursor =>
      some (Except.ok (FlowDecision.PopNode (RNodeState.Running
        (tick_args.with' P_CURSOR (RtValue.int cursor)))))
  | FlowType.Parallel =>
    match read_cursor tick_args with
    | Except.error e => some (Except.error e)
    | Except.ok cursor =>
      match replace_child_state (tick_args.with' P_CURSOR (RtValue.int cursor))
          (i64_to_usize cursor) 1 with
      | none => none
      | some new_args =>
        match read_children_state new_args with
        | none => none
        | some children =>
          match find_next_idx children cursor with
          | some idx =>
            some (Except.ok (FlowDecision.Stay (RNodeState.Running
              (new_args.with' CURSOR (RtValue.int (idx : Int))))))
          | none =>
            some (Except.ok (FlowDecision.PopNode (RNodeState.Running new_args)))
  | _ => some (Except.ok (FlowDecision.PopNode (RNodeState.Running tick_args)))

/-- `Event` — tracer events (`src/tracer/mod.rs` contract; only the variants
used by the covered context code are modelled). -/
inductive Event where
  | NextTick
  | NewState (id : Nat) (state : RNodeState)
  | Custom (s : String)
deriving Repr

/-- `TreeContext` — the per-run mutable state (`src/runtime/context.rs`).
The hash maps are modelled as association lists, the tracer as the list of
`(tick, event)` records appended so far.  `RNodeId` and `Timestamp` are `Nat`. -/
structure TreeContext where
  state : List (Nat × RNodeState)
  ts_map : List (Nat × Nat)
  curr_ts : Nat
  tick_limit : Nat
  tracer : List (Nat × Event)

/-- `TreeContext::trace` — append a record at the current tick. -/
def TreeContext.trace (ctx : TreeContext) (ev : Event) : TreeContext :=
  { ctx with tracer := ctx.tracer ++ [(ctx.curr_ts, ev)] }

/-- `TreeContext::next_tick` — bump the tick, trace `NextTick`, fail with
`Stopped` when the tick limit is hit. -/
def TreeContext.next_tick (ctx : TreeContext) : TreeContext × RtResult Unit :=
  let ctx := { ctx with curr_ts := ctx.curr_ts + 1 }
  let ctx := ctx.trace Event.NextTick
  if ctx.tick_limit ≠ 0 ∧ ctx.curr_ts ≥ ctx.tick_limit then
    (ctx, Except.error (RuntimeError.Stopped
      ("the limit of ticks are exceeded on " ++ toString ctx.curr_ts)))
  else
    (ctx, Except.ok ())

/-- `TreeContext::is_curr_ts`. -/
def TreeContext.is_curr_ts (ctx : TreeContext) (id : Nat) : Bool :=
  ((ctx.ts_map.lookup id).map (fun e => e == ctx.curr_ts)).getD false

/-- `TreeContext::state_last_set`. -/
def TreeContext.state_last_set (ctx : TreeContext) (id : Nat) : RNodeState :=
  (ctx.state.lookup id).getD (RNodeState.Ready RtArgs.default)

/-- `TreeContext::state_in_ts`. -/
def TreeContext.state_in_ts (ctx : TreeContext) (id : Nat) : RNodeState :=
  let actual_state := ctx.state_last_set id
  if ctx.is_curr_ts id then actual_state
  else RNodeState.Ready actual_state.args

/-- A concrete context for claim C8: node 1 was last touched at tick 1 with a
`Running` state carrying a `cursor` entry; the current tick is 2. -/
def c8_ctx : TreeContext :=
  TreeContext.mk [(1, RNodeState.Running (RtArgs.mk [(CURSOR, RtValue.int 1)]))]
    [(1, 1)] 2 0 []

/-! ### Helper lemmas about `RtArgs` -/

theorem find?_map_replace (k : String) (v : RtValue) (l : List (String × RtValue))
    (hl : l.any (fun p => p.1 == k) = true) :
    (l.map (fun p => if p.1 == k then (k, v) else p)).find? (fun p => p.1 == k)
      = some (k, v) := by
  induction l with
  | nil => simp at hl
  | cons p t ih =>
    simp only [List.map_cons]
    by_cases hp : (p.1 == k) = true
    · simp [List.find?_cons, hp]
    · have hp' : (p.1 == k) = false := by simpa using hp
      have ht : t.any (fun p => p.1 == k) = true := by simpa [hp'] using hl
      have hhead : (if (p.1 == k) then ((k, v) : String × RtValue) else p) = p :=
        if_neg (by simp [hp'])
      rw [hhead, List.find?_cons, hp']
      exact ih ht

theorem RtArgs.find_with_self (args : RtArgs) (k : String) (v : RtValue) :
    (args.with' k v).find k = some v := by
  rcases args with ⟨items⟩
  unfold RtArgs.with' RtArgs.find
  by_cases h : items.any (fun p => p.1 == k) = true
  · rw [if_pos h]
    rw [show (RtArgs.mk (items.map (fun p => if p.1 == k then (k, v) else p))).items
        = items.map (fun p => if p.1 == k then (k, v) else p) from rfl]
    rw [find?_map_replace k v items h]
    rfl
  · rw [if_neg h]
    have hfalse : items.any (fun p => p.1 == k) = false := by
      cases hh : items.any (fun p => p.1 == k) with
      | true => exact absurd hh h
      | false => rfl
    have hnone : items.find? (fun p => p.1 == k) = none := by
      rw [List.find?_eq_none]
      intro x hx
      exact (List.any_eq_false.mp hfalse) x hx
    have hsingle : ([(k, v)] : List (String × RtValue)).find? (fun p => p.1 == k)
        = some (k, v) := by
      simp
    rw [show (RtArgs.mk (items ++ [(k, v)])).items = items ++ [(k, v)] from rfl]
    rw [List.find?_append, hnone, hsingle]
    rfl

theorem RtArgs.find_with_ne (args : RtArgs) (k k' : String) (v : RtValue)
    (hne : k ≠ k') :
    (args.with' k' v).find k = args.find k := by
  rcases args with ⟨items⟩
  unfold RtArgs.with' RtArgs.find
  by_cases h : items.any (fun p => p.1 == k') = true
  · rw [if_pos h]
    rw [show (RtArgs.mk (items.map (fun p => if p.1 == k' then (k', v) else p))).items
        = items.map (fun p => if p.1 == k' then (k', v) else p) from rfl]
    rw [List.find?_map]
    have hpf : ((fun p : String × RtValue => p.1 == k) ∘
        (fun p : String × RtValue => if p.1 == k' then (k', v) else p)) =
        (fun p : String × RtValue => p.1 == k) := by
      funext q
      by_cases hq : (q.1 == k') = true
      · have hq' : q.1 = k' := by simpa using hq
        simp [Function.comp, hq, hq']
      · have hq' : (q.1 == k') = false := by simpa using hq
        simp [Function.comp, hq']
    rw [hpf]
    cases hfind : items.find? (fun p => p.1 == k) with
    | none => rfl
    | some a =>
      have ha := List.find?_some (p := fun p : String × RtValue => p.1 == k) hfind
      have ha1 : a.1 = k := by simpa using ha
      simp [ha1, hne]
  · rw [if_neg h]
    rw [show (RtArgs.mk (items ++ [(k', v)])).items = items ++ [(k', v)] from rfl]
    have hsingle : ([(k', v)] : List (String × RtValue)).find? (fun p => p.1 == k)
        = none := by
      simp [Ne.symm hne]
    rw [List.find?_append, hsingle, Option.or_none]

theorem RtArgs.find_remove_self (args : RtArgs) (k : String) :
    (args.remove k).find k = none := by
  rcases args with ⟨items⟩
  unfold RtArgs.remove RtArgs.find
  have hnone : (items.filter (fun p => !(p.1 == k))).find? (fun p => p.1 == k)
      = none := by
    rw [List.find?_eq_none]
    intro x hx
    have h2 := (List.mem_filter.mp hx).2
    have h3 : (x.1 == k) = false := by simpa using h2
    simp [h3]
  rw [show (RtArgs.mk (items.filter (fun p => !(p.1 == k)))).items
      = items.filter (fun p => !(p.1 == k)) from rfl]
  rw [hnone]
  rfl

theorem find?_filter_ne (k k' : String) (hne : k ≠ k') (l : List (String × RtValue)) :
    (l.filter (fun p => !(p.1 == k'))).find? (fun p => p.1 == k)
      = l.find? (fun p => p.1 == k) := by
  induction l with
  | nil => simp
  | cons p t ih =>
    by_cases hp : (p.1 == k') = true
    · have hp1 : p.1 = k' := by simpa using hp
      have hpk : (p.1 == k) = false := by simp [hp1, Ne.symm hne]
      simp [List.filter_cons, hp, List.find?_cons, hpk, ih]
    · have hp' : (p.1 == k') = false := by simpa using hp
      by_cases hpk : (p.1 == k) = true
      · simp [List.filter_cons, hp', List.find?_cons, hpk]
      · have hpk' : (p.1 == k) = false := by simpa using hpk
        simp [List.filter_cons, hp', List.find?_cons, hpk', ih]

theorem RtArgs.find_remove_ne (args : RtArgs) (k k' : String) (hne : k ≠ k') :
    (args.remove k').find k = args.find k := by
  rcases args with ⟨items⟩
  unfold RtArgs.remove RtArgs.find
  rw [show (RtArgs.mk (items.filter (fun p => !(p.1 == k')))).items
      = items.filter (fun p => !(p.1 == k')) from rfl]
  rw [find?_filter_ne k k' hne items]

theorem mapM_as_int_map (xs : List Int) :
    ((xs.map RtValue.int).mapM RtValue.as_int) = some xs := by
  induction xs with
  | nil => rfl
  | cons x t ih =>
    rw [List.map_cons, List.mapM_cons]
    rw [show RtValue.as_int (RtValue.int x) = some x from rfl, ih]
    rfl

theorem mapM_as_int_eq_some (ys : List RtValue) (l : List Int)
    (h : ys.mapM RtValue.as_int = some l) : ys = l.map RtValue.int := by
  induction ys generalizing l with
  | nil =>
    cases (show (some ([] : List Int)) = some l from h)
    rfl
  | cons y t ih =>
    rw [List.mapM_cons] at h
    cases hy : RtValue.as_int y with
    | none =>
      rw [hy] at h
      simp at h
    | some a =>
      rw [hy] at h
      cases ht : t.mapM RtValue.as_int with
      | none =>
        rw [ht] at h
        simp at h
      | some tl =>
        rw [ht] at h
        have hl : l = a :: tl := by simpa using h.symm
        subst hl
        have hy' : y = RtValue.int a := by
          cases y with
          | int w =>
            have : w = a := by simpa [RtValue.as_int] using hy
            simp [this]
          | str s => simp [RtValue.as_int] at hy
          | bool b => simp [RtValue.as_int] at hy
          | array zs => simp [RtValue.as_int] at hy
        simp [hy', ih tl ht]

theorem i64_to_usize_of_nonneg (i : Int) (h0 : 0 ≤ i) (h1 : i < 2 ^ 64) :
    i64_to_usize i = i.toNat := by
  unfold i64_to_usize
  rw [Int.emod_eq_of_lt h0 h1]

/-- If the `find_pos` scan returns nothing, no index in `[lo, hi)` holds a
ready (0) or running (1) status. -/
theorem find_pos_go_none (children : List Int) (n lo hi : Nat)
    (hn : hi - lo ≤ n) (h : find_pos_go children lo hi = none) :
    ∀ i, lo ≤ i → i < hi →
      ¬(children.getD i (-1) = 0 ∨ children.getD i (-1) = 1) := by
  revert hn h
  induction n generalizing lo with
  | zero =>
    intro hn _ i h1 h2
    omega
  | succ n ih =>
    intro hn h i h1 h2 hok
    rw [find_pos_go.eq_def] at h
    have hlt : lo < hi := by omega
    rw [dif_pos hlt] at h
    by_cases hlo : children.getD lo (-1) = 0 ∨ children.getD lo (-1) = 1
    · rw [if_pos hlo] at h
      cases h
    · rw [if_neg hlo] at h
      rcases Nat.eq_or_lt_of_le h1 with heq | hlt2
      · exact hlo (heq ▸ hok)
      · exact ih (lo + 1) (by omega) h i (by omega) h2 hok

/-- If the `find_pos` scan returns an index, it is the least index in
`[lo, hi)` holding a ready (0) or running (1) status. -/
theorem find_pos_go_some (children : List Int) (n lo hi j : Nat)
    (hn : hi - lo ≤ n) (h : find_pos_go children lo hi = some j) :
    lo ≤ j ∧ j < hi ∧ (children.getD j (-1) = 0 ∨ children.getD j (-1) = 1) ∧
      (∀ i, lo ≤ i → i < j →
        ¬(children.getD i (-1) = 0 ∨ children.getD i (-1) = 1)) := by
  revert hn h
  induction n generalizing lo with
  | zero =>
    intro hn h
    rw [find_pos_go.eq_def] at h
    have hge : ¬ lo < hi := by omega
    rw [dif_neg hge] at h
    cases h
  | succ n ih =>
    intro hn h
    rw [find_pos_go.eq_def] at h
    by_cases hlt : lo < hi
    · rw [dif_pos hlt] at h
      by_cases hlo : children.getD lo (-1) = 0 ∨ children.getD lo (-1) = 1
      · rw [if_pos hlo] at h
        cases h
        exact ⟨Nat.le_refl _, hlt, hlo, fun i h1 h2 => by omega⟩
      · rw [if_neg hlo] at h
        obtain ⟨hj1, hj2, hj3, hj4⟩ := ih (lo + 1) (by omega) h
        refine ⟨by omega, hj2, hj3, ?_⟩
        intro i h1 h2
        rcases Nat.eq_or_lt_of_le h1 with heq | hlt2
        · exact heq ▸ hlo
        · exact hj4 i (by omega) h2
    · rw [dif_neg hlt] at h
      cases h

/-! ### Find lemmas for `run_with` -/

theorem run_with_find_pc (a : RtArgs) (c l : Int) :
    (run_with a c l).find P_CURSOR = a.find P_CURSOR := by
  unfold run_with
  rw [RtArgs.find_with_ne _ _ _ _ (by decide), RtArgs.find_with_ne _ _ _ _ (by decide)]

theorem run_with_find_reason (a : RtArgs) (c l : Int) :
    (run_with a c l).find REASON = a.find REASON := by
  unfold run_with
  rw [RtArgs.find_with_ne _ _ _ _ (by decide), RtArgs.find_with_ne _ _ _ _ (by decide)]

theorem run_with_find_cursor (a : RtArgs) (c l : Int) :
    (run_with a c l).find CURSOR = some (RtValue.int c) := by
  unfold run_with
  rw [RtArgs.find_with_ne _ _ _ _ (by decide), RtArgs.find_with_self]

theorem run_with_find_children (a : RtArgs) (c l : Int) :
    (run_with a c l).find CHILDREN = a.find CHILDREN := by
  unfold run_with
  rw [RtArgs.find_with_ne _ _ _ _ (by decide), RtArgs.find_with_ne _ _ _ _ (by decide)]

/-- The `Sequence` and `RSequence` arms of `finalize` share one body. -/
theorem finalize_seq_eq (tpe : FlowType)
    (htpe : tpe = FlowType.Sequence ∨ tpe = FlowType.RSequence)
    (args : RtArgs) (res : TickResultFin) :
    finalize tpe args res = finalize FlowType.Sequence args res := by
  obtain rfl | rfl := htpe
  · rfl
  · rfl

/-- The `Fallback` and `RFallback` arms of `finalize` share one body. -/
theorem finalize_fb_eq (tpe : FlowType)
    (htpe : tpe = FlowType.Fallback ∨ tpe = FlowType.RFallback)
    (args : RtArgs) (res : TickResultFin) :
    finalize tpe args res = finalize FlowType.Fallback args res := by
  obtain rfl | rfl := htpe
  · rfl
  · rfl

/-! ### Claims -/

/-- **C3**: for every `RtArgs` value, `read_cursor` returns the max of the
`cursor` and `prev_cursor` integer entries when both are present, the one
that is present when exactly one is, and 0 when neither is present; it never
returns an error. -/
theorem read_cursor_spec (args : RtArgs) :
    (∀ a b, (args.find CURSOR).bind RtValue.as_int = some a →
        (args.find P_CURSOR).bind RtValue.as_int = some b →
        read_cursor args = Except.ok (max a b)) ∧
    (∀ a, (args.find CURSOR).bind RtValue.as_int = some a →
        (args.find P_CURSOR).bind RtValue.as_int = none →
        read_cursor args = Except.ok a) ∧
    (∀ b, (args.find CURSOR).bind RtValue.as_int = none →
        (args.find P_CURSOR).bind RtValue.as_int = some b →
        read_cursor args = Except.ok b) ∧
    ((args.find CURSOR).bind RtValue.as_int = none →
        (args.find P_CURSOR).bind RtValue.as_int = none →
        read_cursor args = Except.ok 0) ∧
    (∃ v, read_cursor args = Except.ok v) := by
  refine ⟨?_, ?_, ?_, ?_, ?_⟩
  · intro a b h1 h2
    simp only [read_cursor, h1, h2]
    rw [Int.max_comm]
  · intro a h1 h2
    simp only [read_cursor, h1, h2]
  · intro b h1 h2
    simp only [read_cursor, h1, h2]
  · intro h1 h2
    simp only [read_cursor, h1, h2]
  · cases h1 : (args.find CURSOR).bind RtValue.as_int with
    | none =>
      cases h2 : (args.find P_CURSOR).bind RtValue.as_int with
      | none => exact ⟨0, by simp only [read_cursor, h1, h2]⟩
      | some b => exact ⟨b, by simp only [read_cursor, h1, h2]⟩
    | some a =>
      cases h2 : (args.find P_CURSOR).bind RtValue.as_int with
      | none => exact ⟨a, by simp only [read_cursor, h1, h2]⟩
      | some b => exact ⟨max b a, by simp only [read_cursor, h1, h2]⟩

/-- Witness for C3 at a concrete input: both entries present. -/
theorem read_cursor_spec_witness :
    read_cursor (RtArgs.mk [(CURSOR, RtValue.int 2), (P_CURSOR, RtValue.int 5)])
      = Except.ok (max 2 5) :=
  (read_cursor_spec (RtArgs.mk [(CURSOR, RtValue.int 2), (P_CURSOR, RtValue.int 5)])).1
    2 5 rfl rfl

/-- **C2**: `state_in_ts(id)` returns the last recorded state unchanged when
`ts_map[id]` equals the current tick, otherwise `Ready` carrying the args of
the last recorded state, defaulting to `Ready` with empty args when neither a
state nor a timestamp was ever recorded. -/
theorem state_in_ts_spec (ctx : TreeContext) (id : Nat) :
    (∀ s, ctx.ts_map.lookup id = some ctx.curr_ts → ctx.state.lookup id = some s →
      ctx.state_in_ts id = s) ∧
    (∀ s, ctx.ts_map.lookup id ≠ some ctx.curr_ts → ctx.state.lookup id = some s →
      ctx.state_in_ts id = RNodeState.Ready s.args) ∧
    (ctx.state.lookup id = none → ctx.ts_map.lookup id = none →
      ctx.state_in_ts id = RNodeState.Ready (RtArgs.mk [])) := by
  refine ⟨?_, ?_, ?_⟩
  · intro s h1 h2
    simp [TreeContext.state_in_ts, TreeContext.is_curr_ts, TreeContext.state_last_set,
      h1, h2]
  · intro s h1 h2
    cases hts : ctx.ts_map.lookup id with
    | none =>
      simp [TreeContext.state_in_ts, TreeContext.is_curr_ts, TreeContext.state_last_set,
        hts, h2]
    | some t =>
      have ht : t ≠ ctx.curr_ts := by
        intro he
        exact h1 (by rw [hts, he])
      simp [TreeContext.state_in_ts, TreeContext.is_curr_ts, TreeContext.state_last_set,
        hts, ht, h2]
  · intro h1 h2
    simp [TreeContext.state_in_ts, TreeContext.is_curr_ts, TreeContext.state_last_set,
      h1, h2, RtArgs.default, RNodeState.args]

/-- Witness for C2 at a concrete context: node touched in the current tick. -/
theorem state_in_ts_spec_witness :
    (TreeContext.mk [(1, RNodeState.Running (RtArgs.mk [(CURSOR, RtValue.int 0)]))]
        [(1, 3)] 3 0 []).state_in_ts 1
      = RNodeState.Running (RtArgs.mk [(CURSOR, RtValue.int 0)]) :=
  (state_in_ts_spec
    (TreeContext.mk [(1, RNodeState.Running (RtArgs.mk [(CURSOR, RtValue.int 0)]))]
      [(1, 3)] 3 0 []) 1).1
    (RNodeState.Running (RtArgs.mk [(CURSOR, RtValue.int 0)])) rfl rfl

/-- **C8** counterexample: a node untouched in the current tick is seen as
`Ready` carrying the args of its last state — the `cursor` entry is *not*
wiped, so the claimed `Ready` with empty args is wrong. -/
theorem state_in_ts_not_wiped :
    c8_ctx.is_curr_ts 1 = false ∧
    c8_ctx.state_in_ts 1 = RNodeState.Ready (RtArgs.mk [(CURSOR, RtValue.int 1)]) ∧
    c8_ctx.state_in_ts 1 ≠ RNodeState.Ready (RtArgs.mk []) := by
  refine ⟨rfl, rfl, ?_⟩
  intro h
  rw [show c8_ctx.state_in_ts 1
      = RNodeState.Ready (RtArgs.mk [(CURSOR, RtValue.int 1)]) from rfl] at h
  simp at h

/-- **C8** amended: for every node not touched in the current tick,
`state_in_ts` returns `Ready` carrying the args of the last recorded state;
in particular the `cursor` entry is preserved, not wiped (the args are empty
only when no state was ever recorded). -/
theorem state_in_ts_keeps_args (ctx : TreeContext) (id : Nat)
    (h : ctx.is_curr_ts id = false) :
    ctx.state_in_ts id = RNodeState.Ready (ctx.state_last_set id).args ∧
    (ctx.state_in_ts id).args.find CURSOR
      = (ctx.state_last_set id).args.find CURSOR := by
  have e : ctx.state_in_ts id = RNodeState.Ready (ctx.state_last_set id).args := by
    unfold TreeContext.state_in_ts
    rw [h]
    simp
  refine ⟨e, ?_⟩
  rw [e]
  rfl

/-- Witness for the amended C8 at the concrete context. -/
theorem state_in_ts_keeps_args_witness :
    c8_ctx.is_curr_ts 1 = false ∧
    (c8_ctx.state_in_ts 1 = RNodeState.Ready (c8_ctx.state_last_set 1).args ∧
     (c8_ctx.state_in_ts 1).args.find CURSOR
       = (c8_ctx.state_last_set 1).args.find CURSOR) :=
  ⟨rfl, state_in_ts_keeps_args c8_ctx 1 rfl⟩

/-- **C9**: `next_tick` increments `curr_ts` by one and emits a `NextTick`
trace event, then fails with `Stopped` iff `tick_limit` is nonzero and the
incremented `curr_ts` is ≥ `tick_limit`; on the non-error path `curr_ts` is
still incremented.  With `tick_limit = 5` and `curr_ts` starting at 1, the
fourth call stops with `curr_ts = 5`. -/
theorem next_tick_spec (ctx : TreeContext) :
    (((ctx.next_tick).1.curr_ts = ctx.curr_ts + 1) ∧
     ((ctx.next_tick).1.tracer = ctx.tracer ++ [(ctx.curr_ts + 1, Event.NextTick)]) ∧
     ((∃ s, (ctx.next_tick).2 = Except.error (RuntimeError.Stopped s)) ↔
       (ctx.tick_limit ≠ 0 ∧ ctx.curr_ts + 1 ≥ ctx.tick_limit)) ∧
     (¬(ctx.tick_limit ≠ 0 ∧ ctx.curr_ts + 1 ≥ ctx.tick_limit) →
       (ctx.next_tick).2 = Except.ok ())) ∧
    ((TreeContext.mk [] [] 1 5 []).next_tick.2 = Except.ok () ∧
     (TreeContext.mk [] [] 1 5 []).next_tick.1.next_tick.2 = Except.ok () ∧
     (TreeContext.mk [] [] 1 5
       []).next_tick.1.next_tick.1.next_tick.2 = Except.ok () ∧
     (TreeContext.mk [] [] 1 5
       []).next_tick.1.next_tick.1.next_tick.1.next_tick.1.curr_ts = 5 ∧
     ∃ s, (TreeContext.mk [] [] 1 5
       []).next_tick.1.next_tick.1.next_tick.1.next_tick.2
         = Except.error (RuntimeError.Stopped s)) := by
  refine ⟨?_, rfl, rfl, rfl, rfl, ⟨_, rfl⟩⟩
  by_cases hcond : ctx.tick_limit ≠ 0 ∧ ctx.curr_ts + 1 ≥ ctx.tick_limit
  · have key : ctx.next_tick
        = ({ ctx with
              curr_ts := ctx.curr_ts + 1
              tracer := ctx.tracer ++ [(ctx.curr_ts + 1, Event.NextTick)] },
           Except.error (RuntimeError.Stopped
             ("the limit of ticks are exceeded on " ++ toString (ctx.curr_ts + 1)))) := by
      unfold TreeContext.next_tick TreeContext.trace
      rw [if_pos hcond]
    rw [key]
    refine ⟨rfl, rfl, ?_, ?_⟩
    · exact ⟨fun _ => hcond, fun _ => ⟨_, rfl⟩⟩
    · intro hn
      exact absurd hcond hn
  · have key : ctx.next_tick
        = ({ ctx with
              curr_ts := ctx.curr_ts + 1
              tracer := ctx.tracer ++ [(ctx.curr_ts + 1, Event.NextTick)] },
           Except.ok ()) := by
      unfold TreeContext.next_tick TreeContext.trace
      rw [if_neg hcond]
    rw [key]
    refine ⟨rfl, rfl, ?_, fun _ => rfl⟩
    constructor
    · rintro ⟨s, hs⟩
      cases hs
    · intro hc
      exact absurd hc hcond

/-- Witness for C9: a context with no tick limit; the tick is incremented
and the call succeeds. -/
theorem next_tick_spec_witness :
    (TreeContext.mk [] [] 1 0 []).next_tick.1.curr_ts = 1 + 1 ∧
    (TreeContext.mk [] [] 1 0 []).next_tick.2 = Except.ok () :=
  ⟨(next_tick_spec (TreeContext.mk [] [] 1 0 [])).1.1,
    (next_tick_spec (TreeContext.mk [] [] 1 0 [])).1.2.2.2 (by simp)⟩

/-- **C6**: for a `Sequence` or `RSequence` node with cursor `c` and child
count `len`, `finalize` on a child `Failure v` removes `prev_cursor`, stamps
`reason = v` and returns `Stay(Failure)`; on `Success` it returns
`Stay(Success)` with `prev_cursor` removed when `c = len - 1`, else
`Stay(Running)` with cursor `c + 1`. -/
theorem finalize_sequence_spec (tpe : FlowType) (args : RtArgs) (c len : Int)
    (htpe : tpe = FlowType.Sequence ∨ tpe = FlowType.RSequence)
    (hc : read_cursor args = Except.ok c)
    (hlen : read_len_or_zero args = len) :
    (∀ v,
      finalize tpe args (TickResultFin.Failure v)
        = some (Except.ok (FlowDecision.Stay (RNodeState.Failure
            (run_with ((args.remove P_CURSOR).with' REASON (RtValue.str v)) c len)))) ∧
      (run_with ((args.remove P_CURSOR).with' REASON (RtValue.str v)) c len).find P_CURSOR
        = none ∧
      (run_with ((args.remove P_CURSOR).with' REASON (RtValue.str v)) c len).find REASON
        = some (RtValue.str v)) ∧
    (c = len - 1 →
      finalize tpe args TickResultFin.Success
        = some (Except.ok (FlowDecision.Stay (RNodeState.Success
            (run_with (args.remove P_CURSOR) c len)))) ∧
      (run_with (args.remove P_CURSOR) c len).find P_CURSOR = none) ∧
    (c ≠ len - 1 →
      finalize tpe args TickResultFin.Success
        = some (Except.ok (FlowDecision.Stay (RNodeState.Running
            (run_with args (c + 1) len)))) ∧
      (run_with args (c + 1) len).find CURSOR = some (RtValue.int (c + 1))) := by
  refine ⟨fun v => ⟨?_, ?_, ?_⟩, fun hlast => ⟨?_, ?_⟩, fun hnot => ⟨?_, ?_⟩⟩
  · rw [finalize_seq_eq tpe htpe]
    simp only [finalize, hc, hlen]
  · rw [run_with_find_pc, RtArgs.find_with_ne _ _ _ _ (by decide), RtArgs.find_remove_self]
  · rw [run_with_find_reason, RtArgs.find_with_self]
  · rw [finalize_seq_eq tpe htpe]
    simp only [finalize, hc, hlen]
    rw [if_pos hlast]
  · rw [run_with_find_pc, RtArgs.find_remove_self]
  · rw [finalize_seq_eq tpe htpe]
    simp only [finalize, hc, hlen]
    rw [if_neg hnot]
  · rw [run_with_find_cursor]

/-- Witness for C6: a concrete `Sequence` with `cursor = 1`, `len = 3`;
a child success advances the cursor to 2. -/
theorem finalize_sequence_spec_witness :
    (1 : Int) ≠ 3 - 1 ∧
    finalize FlowType.Sequence
        (RtArgs.mk [(CURSOR, RtValue.int 1), (LEN, RtValue.int 3)]) TickResultFin.Success
      = some (Except.ok (FlowDecision.Stay (RNodeState.Running
          (run_with (RtArgs.mk [(CURSOR, RtValue.int 1), (LEN, RtValue.int 3)]) 2 3)))) :=
  ⟨by decide,
    ((finalize_sequence_spec FlowType.Sequence
        (RtArgs.mk [(CURSOR, RtValue.int 1), (LEN, RtValue.int 3)]) 1 3
        (Or.inl rfl) rfl rfl).2.2 (by decide)).1⟩

/-- **C7**: for a `Fallback` or `RFallback` node with cursor `c` and child
count `len`, `finalize` on a child `Failure v` returns `Stay(Failure)` with
`prev_cursor` removed and `reason = v` when `c = len - 1`, else
`Stay(Running)` with cursor `c + 1`; on `Success` it removes `prev_cursor`
and returns `Stay(Success)`. -/
theorem finalize_fallback_spec (tpe : FlowType) (args : RtArgs) (c len : Int)
    (htpe : tpe = FlowType.Fallback ∨ tpe = FlowType.RFallback)
    (hc : read_cursor args = Except.ok c)
    (hlen : read_len_or_zero args = len) :
    (∀ v, c = len - 1 →
      finalize tpe args (TickResultFin.Failure v)
        = some (Except.ok (FlowDecision.Stay (RNodeState.Failure
            (run_with ((args.remove P_CURSOR).with' REASON (RtValue.str v)) c len)))) ∧
      (run_with ((args.remove P_CURSOR).with' REASON (RtValue.str v)) c len).find P_CURSOR
        = none ∧
      (run_with ((args.remove P_CURSOR).with' REASON (RtValue.str v)) c len).find REASON
        = some (RtValue.str v)) ∧
    (∀ v, c ≠ len - 1 →
      finalize tpe args (TickResultFin.Failure v)
        = some (Except.ok (FlowDecision.Stay (RNodeState.Running
            (run_with args (c + 1) len)))) ∧
      (run_with args (c + 1) len).find CURSOR = some (RtValue.int (c + 1))) ∧
    (finalize tpe args TickResultFin.Success
        = some (Except.ok (FlowDecision.Stay (RNodeState.Success
            (run_with (args.remove P_CURSOR) c len)))) ∧
      (run_with (args.remove P_CURSOR) c len).find P_CURSOR = none) := by
  refine ⟨fun v hlast => ⟨?_, ?_, ?_⟩, fun v hnot => ⟨?_, ?_⟩, ⟨?_, ?_⟩⟩
  · rw [finalize_fb_eq tpe htpe]
    simp only [finalize, hc, hlen]
    rw [if_pos hlast]
  · rw [run_with_find_pc, RtArgs.find_with_ne _ _ _ _ (by decide), RtArgs.find_remove_self]
  · rw [run_with_find_reason, RtArgs.find_with_self]
  · rw [finalize_fb_eq tpe htpe]
    simp only [finalize, hc, hlen]
    rw [if_neg hnot]
  · rw [run_with_find_cursor]
  · rw [finalize_fb_eq tpe htpe]
    simp only [finalize, hc, hlen]
  · rw [run_with_find_pc, RtArgs.find_remove_self]

/-- Witness for C7: a concrete `Fallback` with `cursor = 0`, `len = 2`;
a child failure advances the cursor to 1. -/
theorem finalize_fallback_spec_witness :
    (0 : Int) ≠ 2 - 1 ∧
    finalize FlowType.Fallback
        (RtArgs.mk [(CURSOR, RtValue.int 0), (LEN, RtValue.int 2)])
        (TickResultFin.Failure ("err"))
      = some (Except.ok (FlowDecision.Stay (RNodeState.Running
          (run_with (RtArgs.mk [(CURSOR, RtValue.int 0), (LEN, RtValue.int 2)]) 1 2)))) :=
  ⟨by decide,
    ((finalize_fallback_spec FlowType.Fallback
        (RtArgs.mk [(CURSOR, RtValue.int 0), (LEN, RtValue.int 2)]) 0 2
        (Or.inl rfl) rfl rfl).2.1 ("err") (by decide)).1⟩

/-- **C5**: for an `MSequence` node with cursor `c`, `finalize` on a child
`Failure` produces `Stay(Failure)` whose args retain `prev_cursor = c`
(a retry resumes at the failed child), while `finalize` on `Success` of the
last child (`c = len - 1`) produces `Stay(Success)` with `prev_cursor`
removed. -/
theorem finalize_msequence_spec (args : RtArgs) (c len : Int)
    (hc : read_cursor args = Except.ok c)
    (hlen : read_len_or_zero args = len) :
    (∀ v,
      finalize FlowType.MSequence args (TickResultFin.Failure v)
        = some (Except.ok (FlowDecision.Stay (RNodeState.Failure
            ((run_with (args.with' P_CURSOR (RtValue.int c)) c len).with'
              REASON (RtValue.str v))))) ∧
      ((run_with (args.with' P_CURSOR (RtValue.int c)) c len).with'
          REASON (RtValue.str v)).find P_CURSOR = some (RtValue.int c)) ∧
    (c = len - 1 →
      finalize FlowType.MSequence args TickResultFin.Success
        = some (Except.ok (FlowDecision.Stay (RNodeState.Success
            (run_with (args.remove P_CURSOR) c len)))) ∧
      (run_with (args.remove P_CURSOR) c len).find P_CURSOR = none) := by
  refine ⟨fun v => ⟨?_, ?_⟩, fun hlast => ⟨?_, ?_⟩⟩
  · simp only [finalize, hc, hlen]
  · rw [RtArgs.find_with_ne _ _ _ _ (by decide), run_with_find_pc, RtArgs.find_with_self]
  · simp only [finalize, hc, hlen]
    rw [if_pos hlast]
  · rw [run_with_find_pc, RtArgs.find_remove_self]

/-- Witness for C5: a concrete `MSequence` with `cursor = 1`, `len = 3`;
a child failure keeps `prev_cursor = 1`. -/
theorem finalize_msequence_spec_witness :
    finalize FlowType.MSequence
        (RtArgs.mk [(CURSOR, RtValue.int 1), (LEN, RtValue.int 3)])
        (TickResultFin.Failure ("boom"))
      = some (Except.ok (FlowDecision.Stay (RNodeState.Failure
          ((run_with ((RtArgs.mk [(CURSOR, RtValue.int 1), (LEN, RtValue.int 3)]).with'
              P_CURSOR (RtValue.int 1)) 1 3).with' REASON (RtValue.str ("boom")))))) :=
  ((finalize_msequence_spec
      (RtArgs.mk [(CURSOR, RtValue.int 1), (LEN, RtValue.int 3)]) 1 3 rfl rfl).1
    ("boom")).1

/-! ### Helpers for the `Parallel` claims -/

theorem getD_set_self (xs : List Int) (i : Nat) (v : Int) (h : i < xs.length) :
    (xs.set i v).getD i (-1) = v := by
  have h2 : i < (xs.set i v).length := by simpa using h
  simp [List.getD_eq_getElem?_getD, List.getElem?_eq_getElem h2]

theorem contains_int_iff (l : List Int) (a : Int) :
    l.contains a = true ↔ ∃ i, i < l.length ∧ l.getD i (-1) = a := by
  constructor
  · intro h
    have hmem : a ∈ l := by simpa using h
    rw [List.mem_iff_getElem] at hmem
    obtain ⟨i, hi, he⟩ := hmem
    refine ⟨i, hi, ?_⟩
    simp [List.getD_eq_getElem?_getD, List.getElem?_eq_getElem hi, he]
  · rintro ⟨i, hi, he⟩
    have he' : l[i] = a := by
      simpa [List.getD_eq_getElem?_getD, List.getElem?_eq_getElem hi] using he
    have hmem : a ∈ l := by
      rw [List.mem_iff_getElem]
      exact ⟨i, hi, he'⟩
    simpa using hmem

/-- Reduction of the `Parallel` arm of `monitor` under the well-formedness
precondition on the `children` entry. -/
theorem monitor_parallel_core (args : RtArgs) (c : Int) (xs : List Int)
    (hc : read_cursor args = Except.ok c) (hc0 : 0 ≤ c)
    (hfind : args.find CHILDREN = some (RtValue.array (xs.map RtValue.int)))
    (hcl : c.toNat < xs.length) (hsz : xs.length < 2 ^ 63) :
    monitor FlowType.Parallel args
      = match find_pos_go (xs.set c.toNat 1) (c.toNat + 1) xs.length with
        | some idx => some (Except.ok (FlowDecision.Stay (RNodeState.Running
            (((args.with' P_CURSOR (RtValue.int c)).with' CHILDREN
              (RtValue.array ((xs.set c.toNat 1).map RtValue.int))).with' CURSOR
                (RtValue.int (idx : Int))))))
        | none => some (Except.ok (FlowDecision.PopNode (RNodeState.Running
            ((args.with' P_CURSOR (RtValue.int c)).with' CHILDREN
              (RtValue.array ((xs.set c.toNat 1).map RtValue.int)))))) := by
  have hCP : (args.with' P_CURSOR (RtValue.int c)).find CHILDREN
      = some (RtValue.array (xs.map RtValue.int)) := by
    rw [RtArgs.find_with_ne _ _ _ _ (by decide), hfind]
  have hrcs : read_children_state (args.with' P_CURSOR (RtValue.int c)) = some xs := by
    unfold read_children_state
    rw [hCP]
    exact mapM_as_int_map xs
  have hiu : i64_to_usize c = c.toNat := i64_to_usize_of_nonneg c hc0 (by omega)
  have hrep : replace_child_state (args.with' P_CURSOR (RtValue.int c)) (i64_to_usize c) 1
      = some ((args.with' P_CURSOR (RtValue.int c)).with' CHILDREN
          (RtValue.array ((xs.set c.toNat 1).map RtValue.int))) := by
    unfold replace_child_state
    simp only [hrcs, hiu]
    rw [if_pos hcl]
  have hrcs2 : read_children_state ((args.with' P_CURSOR (RtValue.int c)).with' CHILDREN
      (RtValue.array ((xs.set c.toNat 1).map RtValue.int))) = some (xs.set c.toNat 1) := by
    unfold read_children_state
    rw [RtArgs.find_with_self]
    exact mapM_as_int_map _
  have hfni : find_next_idx (xs.set c.toNat 1) c
      = find_pos_go (xs.set c.toNat 1) (c.toNat + 1) xs.length := by
    unfold find_next_idx find_pos
    have h1 : i64_to_usize (c + 1) = c.toNat + 1 := by
      rw [i64_to_usize_of_nonneg (c + 1) (by omega) (by omega)]
      omega
    have h2 : i64_to_usize ((xs.set c.toNat 1).length : Int) = xs.length := by
      rw [List.length_set]
      rw [i64_to_usize_of_nonneg _ (by omega) (by omega)]
      simp
    rw [h1, h2]
  simp only [monitor, hc, hrep, hrcs2, hfni]

/-- **C4**: after a descendant returned `Running` with current cursor `c`:
`Sequence`, `MSequence` and `Fallback` return `PopNode(Running)` with
`prev_cursor` stamped to `c`; `Parallel` sets `children[c] = 1` and
`prev_cursor = c`, then returns `Stay(Running)` at the smallest index `> c`
whose status is 0 or 1 if one exists, else `PopNode(Running)`; every other
type returns `PopNode(Running)` with the args unchanged. -/
theorem monitor_spec (args : RtArgs) (c : Int)
    (hc : read_cursor args = Except.ok c) :
    (∀ tpe, (tpe = FlowType.Sequence ∨ tpe = FlowType.MSequence ∨ tpe = FlowType.Fallback) →
      monitor tpe args = some (Except.ok (FlowDecision.PopNode (RNodeState.Running
        (args.with' P_CURSOR (RtValue.int c))))) ∧
      (args.with' P_CURSOR (RtValue.int c)).find P_CURSOR = some (RtValue.int c)) ∧
    (∀ tpe, (tpe = FlowType.Root ∨ tpe = FlowType.RSequence ∨ tpe = FlowType.RFallback) →
      monitor tpe args = some (Except.ok (FlowDecision.PopNode (RNodeState.Running args)))) ∧
    (∀ xs : List Int, 0 ≤ c →
      args.find CHILDREN = some (RtValue.array (xs.map RtValue.int)) →
      c.toNat < xs.length → xs.length < 2 ^ 63 →
      (((args.with' P_CURSOR (RtValue.int c)).with' CHILDREN
          (RtValue.array ((xs.set c.toNat 1).map RtValue.int))).find P_CURSOR
        = some (RtValue.int c)) ∧
      ((∃ i, c.toNat < i ∧ i < (xs.set c.toNat 1).length ∧
          ((xs.set c.toNat 1).getD i (-1) = 0 ∨ (xs.set c.toNat 1).getD i (-1) = 1)) →
        ∃ j, c.toNat < j ∧ j < (xs.set c.toNat 1).length ∧
          ((xs.set c.toNat 1).getD j (-1) = 0 ∨ (xs.set c.toNat 1).getD j (-1) = 1) ∧
          (∀ i, c.toNat < i → i < j →
            ¬((xs.set c.toNat 1).getD i (-1) = 0 ∨ (xs.set c.toNat 1).getD i (-1) = 1)) ∧
          monitor FlowType.Parallel args = some (Except.ok (FlowDecision.Stay
            (RNodeState.Running (((args.with' P_CURSOR (RtValue.int c)).with' CHILDREN
              (RtValue.array ((xs.set c.toNat 1).map RtValue.int))).with' CURSOR
                (RtValue.int (j : Int))))))) ∧
      ((∀ i, c.toNat < i → i < (xs.set c.toNat 1).length →
          ¬((xs.set c.toNat 1).getD i (-1) = 0 ∨ (xs.set c.toNat 1).getD i (-1) = 1)) →
        monitor FlowType.Parallel args = some (Except.ok (FlowDecision.PopNode
          (RNodeState.Running ((args.with' P_CURSOR (RtValue.int c)).with' CHILDREN
            (RtValue.array ((xs.set c.toNat 1).map RtValue.int)))))))) := by
  refine ⟨?_, ?_, ?_⟩
  · intro tpe htpe
    have he : monitor tpe args = monitor FlowType.Sequence args := by
      obtain rfl | rfl | rfl := htpe
      · rfl
      · rfl
      · rfl
    rw [he]
    constructor
    · simp only [monitor, hc]
    · rw [RtArgs.find_with_self]
  · intro tpe htpe
    obtain rfl | rfl | rfl := htpe
    · rfl
    · rfl
    · rfl
  · intro xs hc0 hfind hcl hsz
    have hcore := monitor_parallel_core args c xs hc hc0 hfind hcl hsz
    refine ⟨?_, ?_, ?_⟩
    · rw [RtArgs.find_with_ne _ _ _ _ (by decide), RtArgs.find_with_self]
    · intro hex
      cases hfp : find_pos_go (xs.set c.toNat 1) (c.toNat + 1) xs.length with
      | none =>
        exfalso
        obtain ⟨i, hi1, hi2, hio⟩ := hex
        rw [List.length_set] at hi2
        exact find_pos_go_none (xs.set c.toNat 1) xs.length (c.toNat + 1) xs.length
          (by omega) hfp i (by omega) hi2 hio
      | some j =>
        obtain ⟨hj1, hj2, hj3, hj4⟩ := find_pos_go_some (xs.set c.toNat 1) xs.length
          (c.toNat + 1) xs.length j (by omega) hfp
        refine ⟨j, by omega, by rw [List.length_set]; exact hj2, hj3,
          fun i h1 h2 => hj4 i (by omega) h2, ?_⟩
        rw [hcore]
        simp only [hfp]
    · intro hno
      have hfp : find_pos_go (xs.set c.toNat 1) (c.toNat + 1) xs.length = none := by
        cases hfp : find_pos_go (xs.set c.toNat 1) (c.toNat + 1) xs.length with
        | none => rfl
        | some j =>
          obtain ⟨hj1, hj2, hj3, _⟩ := find_pos_go_some (xs.set c.toNat 1) xs.length
            (c.toNat + 1) xs.length j (by omega) hfp
          exact absurd hj3 (hno j (by omega) (by rw [List.length_set]; exact hj2))
      rw [hcore]
      simp only [hfp]

/-- Witness for C4: a children-less `Sequence` invocation pops with
`prev_cursor` stamped, and a concrete `Parallel` with `children = [1, 3, 0]`,
`cursor = 0` stays at index 2 after marking child 0 running. -/
theorem monitor_spec_witness :
    (monitor FlowType.Sequence (RtArgs.mk [(CURSOR, RtValue.int 1)])
      = some (Except.ok (FlowDecision.PopNode (RNodeState.Running
          ((RtArgs.mk [(CURSOR, RtValue.int 1)]).with' P_CURSOR (RtValue.int 1)))))) ∧
    (∃ j, 0 < j ∧ j < (([1, 3, 0] : List Int).set 0 1).length ∧
      ((([1, 3, 0] : List Int).set 0 1).getD j (-1) = 0 ∨
        (([1, 3, 0] : List Int).set 0 1).getD j (-1) = 1) ∧
      (∀ i, 0 < i → i < j →
        ¬((([1, 3, 0] : List Int).set 0 1).getD i (-1) = 0 ∨
          (([1, 3, 0] : List Int).set 0 1).getD i (-1) = 1)) ∧
      monitor FlowType.Parallel
          (RtArgs.mk [(CURSOR, RtValue.int 0),
            (CHILDREN, RtValue.array [RtValue.int 1, RtValue.int 3, RtValue.int 0])])
        = some (Except.ok (FlowDecision.Stay (RNodeState.Running
            ((((RtArgs.mk [(CURSOR, RtValue.int 0),
                (CHILDREN, RtValue.array [RtValue.int 1, RtValue.int 3,
                  RtValue.int 0])]).with' P_CURSOR (RtValue.int 0)).with' CHILDREN
              (RtValue.array ((([1, 3, 0] : List Int).set 0 1).map RtValue.int))).with'
                CURSOR (RtValue.int (j : Int))))))) :=
  ⟨((monitor_spec (RtArgs.mk [(CURSOR, RtValue.int 1)]) 1 rfl).1 FlowType.Sequence
      (Or.inl rfl)).1,
    ((monitor_spec
        (RtArgs.mk [(CURSOR, RtValue.int 0),
          (CHILDREN, RtValue.array [RtValue.int 1, RtValue.int 3, RtValue.int 0])])
        0 rfl).2.2 ([1, 3, 0] : List Int) (by decide) rfl (by decide)
        (by decide)).2.1 ⟨2, by decide, by decide, by decide⟩⟩

/-- Reduction of the `Parallel` arm of `finalize` under the well-formedness
precondition on the `children` entry. -/
theorem finalize_parallel_core (args : RtArgs) (res : TickResultFin)
    (c len st : Int) (xs : List Int)
    (hc : read_cursor args = Except.ok c) (hc0 : 0 ≤ c)
    (hfind : args.find CHILDREN = some (RtValue.array (xs.map RtValue.int)))
    (hcl : c.toNat < xs.length) (hsz : xs.length < 2 ^ 63)
    (hlen : read_len_or_zero args = len)
    (hst : st = match res with
      | TickResultFin.Failure _ => 2
      | TickResultFin.Success => 3) :
    finalize FlowType.Parallel args res
      = match find_pos_go (xs.set c.toNat st) (c.toNat + 1) xs.length with
        | some idx => some (Except.ok (FlowDecision.Stay (RNodeState.Running
            ((args.with' CHILDREN
              (RtValue.array ((xs.set c.toNat st).map RtValue.int))).with'
                CURSOR (RtValue.int (idx : Int))))))
        | none =>
          if (xs.set c.toNat st).contains 1 || (xs.set c.toNat st).contains 0 then
            some (Except.ok (FlowDecision.PopNode (RNodeState.Running
              ((run_with (args.with' CHILDREN
                  (RtValue.array ((xs.set c.toNat st).map RtValue.int)))
                (((find_pos_go (xs.set c.toNat st) 0 c.toNat).getD 0 : Nat) : Int)
                len).with' P_CURSOR (RtValue.int 0)))))
          else if (xs.set c.toNat st).contains 2 then
            some (Except.ok (FlowDecision.Stay (RNodeState.Failure
              (((run_with (args.with' CHILDREN
                  (RtValue.array ((xs.set c.toNat st).map RtValue.int)))
                c len).with' REASON
                  (RtValue.str ("parallel failure"))).remove CHILDREN))))
          else
            some (Except.ok (FlowDecision.Stay (RNodeState.Success
              ((run_with (args.with' CHILDREN
                  (RtValue.array ((xs.set c.toNat st).map RtValue.int)))
                c len).remove CHILDREN)))) := by
  have hrcs : read_children_state args = some xs := by
    unfold read_children_state
    rw [hfind]
    exact mapM_as_int_map xs
  have hiu : i64_to_usize c = c.toNat := i64_to_usize_of_nonneg c hc0 (by omega)
  have hrep : replace_child_state args (i64_to_usize c) st
      = some (args.with' CHILDREN
          (RtValue.array ((xs.set c.toNat st).map RtValue.int))) := by
    unfold replace_child_state
    simp only [hrcs, hiu]
    rw [if_pos hcl]
  have hrcs2 : read_children_state (args.with' CHILDREN
      (RtValue.array ((xs.set c.toNat st).map RtValue.int)))
        = some (xs.set c.toNat st) := by
    unfold read_children_state
    rw [RtArgs.find_with_self]
    exact mapM_as_int_map _
  have hfni : find_next_idx (xs.set c.toNat st) c
      = find_pos_go (xs.set c.toNat st) (c.toNat + 1) xs.length := by
    unfold find_next_idx find_pos
    have h1 : i64_to_usize (c + 1) = c.toNat + 1 := by
      rw [i64_to_usize_of_nonneg (c + 1) (by omega) (by omega)]
      omega
    have h2 : i64_to_usize ((xs.set c.toNat st).length : Int) = xs.length := by
      rw [List.length_set]
      rw [i64_to_usize_of_nonneg _ (by omega) (by omega)]
      simp
    rw [h1, h2]
  have hffi : find_first_idx (xs.set c.toNat st) c
      = find_pos_go (xs.set c.toNat st) 0 c.toNat := by
    unfold find_first_idx find_pos
    rw [show i64_to_usize 0 = 0 from rfl, hiu]
  cases res with
  | Failure v =>
    have hst' : st = 2 := by simpa using hst
    subst hst'
    simp only [finalize, hc, hlen, hrep, hrcs2, hfni, hffi]
  | Success =>
    have hst' : st = 3 := by simpa using hst
    subst hst'
    simp only [finalize, hc, hlen, hrep, hrcs2, hfni, hffi]

/-- **C1**: for a `Parallel` composite, `finalize` on a finished child with
cursor `c`, child count `len` and status array entry `st` (2 on Failure,
3 on Success) first sets `children[c] := st`; then (1) if some index `> c`
has status 0 or 1, the decision is `Stay(Running)` at the smallest such
index; (2) else if some index still has status 0 or 1 (necessarily below
`c`), the decision is `PopNode(Running)` at the smallest such index with
`prev_cursor = 0`; (3) else if some index has status 2, the decision is
`Stay(Failure)` with reason `"parallel failure"` and `children` removed;
(4) else (all entries 3) the decision is `Stay(Success)` with `children`
removed. -/
theorem finalize_parallel_spec (args : RtArgs) (res : TickResultFin)
    (c len st : Int) (xs : List Int)
    (hc : read_cursor args = Except.ok c) (hc0 : 0 ≤ c)
    (hfind : args.find CHILDREN = some (RtValue.array (xs.map RtValue.int)))
    (hcl : c.toNat < xs.length) (hsz : xs.length < 2 ^ 63)
    (hlen : read_len_or_zero args = len)
    (hst : st = match res with
      | TickResultFin.Failure _ => 2
      | TickResultFin.Success => 3) :
    ((∃ i, c.toNat < i ∧ i < (xs.set c.toNat st).length ∧
        ((xs.set c.toNat st).getD i (-1) = 0 ∨ (xs.set c.toNat st).getD i (-1) = 1)) →
      ∃ j, c.toNat < j ∧ j < (xs.set c.toNat st).length ∧
        ((xs.set c.toNat st).getD j (-1) = 0 ∨ (xs.set c.toNat st).getD j (-1) = 1) ∧
        (∀ i, c.toNat < i → i < j →
          ¬((xs.set c.toNat st).getD i (-1) = 0 ∨ (xs.set c.toNat st).getD i (-1) = 1)) ∧
        finalize FlowType.Parallel args res = some (Except.ok (FlowDecision.Stay
          (RNodeState.Running ((args.with' CHILDREN
            (RtValue.array ((xs.set c.toNat st).map RtValue.int))).with'
              CURSOR (RtValue.int (j : Int))))))) ∧
    ((∀ i, c.toNat < i → i < (xs.set c.toNat st).length →
        ¬((xs.set c.toNat st).getD i (-1) = 0 ∨ (xs.set c.toNat st).getD i (-1) = 1)) →
      (∃ i, i < (xs.set c.toNat st).length ∧
        ((xs.set c.toNat st).getD i (-1) = 0 ∨ (xs.set c.toNat st).getD i (-1) = 1)) →
      ∃ j, j < (xs.set c.toNat st).length ∧
        ((xs.set c.toNat st).getD j (-1) = 0 ∨ (xs.set c.toNat st).getD j (-1) = 1) ∧
        (∀ i, i < j →
          ¬((xs.set c.toNat st).getD i (-1) = 0 ∨ (xs.set c.toNat st).getD i (-1) = 1)) ∧
        finalize FlowType.Parallel args res = some (Except.ok (FlowDecision.PopNode
          (RNodeState.Running ((run_with (args.with' CHILDREN
              (RtValue.array ((xs.set c.toNat st).map RtValue.int)))
            (j : Int) len).with' P_CURSOR (RtValue.int 0))))) ∧
        ((run_with (args.with' CHILDREN
            (RtValue.array ((xs.set c.toNat st).map RtValue.int)))
          (j : Int) len).with' P_CURSOR (RtValue.int 0)).find P_CURSOR
            = some (RtValue.int 0) ∧
        ((run_with (args.with' CHILDREN
            (RtValue.array ((xs.set c.toNat st).map RtValue.int)))
          (j : Int) len).with' P_CURSOR (RtValue.int 0)).find CURSOR
            = some (RtValue.int (j : Int))) ∧
    ((∀ i, i < (xs.set c.toNat st).length →
        ¬((xs.set c.toNat st).getD i (-1) = 0 ∨ (xs.set c.toNat st).getD i (-1) = 1)) →
      (∃ i, i < (xs.set c.toNat st).length ∧ (xs.set c.toNat st).getD i (-1) = 2) →
      finalize FlowType.Parallel args res = some (Except.ok (FlowDecision.Stay
        (RNodeState.Failure (((run_with (args.with' CHILDREN
            (RtValue.array ((xs.set c.toNat st).map RtValue.int)))
          c len).with' REASON (RtValue.str ("parallel failure"))).remove CHILDREN)))) ∧
      (((run_with (args.with' CHILDREN
          (RtValue.array ((xs.set c.toNat st).map RtValue.int)))
        c len).with' REASON (RtValue.str ("parallel failure"))).remove CHILDREN).find REASON
          = some (RtValue.str ("parallel failure")) ∧
      (((run_with (args.with' CHILDREN
          (RtValue.array ((xs.set c.toNat st).map RtValue.int)))
        c len).with' REASON (RtValue.str ("parallel failure"))).remove CHILDREN).find CHILDREN
          = none) ∧
    ((∀ i, i < (xs.set c.toNat st).length → (xs.set c.toNat st).getD i (-1) = 3) →
      finalize FlowType.Parallel args res = some (Except.ok (FlowDecision.Stay
        (RNodeState.Success ((run_with (args.with' CHILDREN
            (RtValue.array ((xs.set c.toNat st).map RtValue.int)))
          c len).remove CHILDREN)))) ∧
      ((run_with (args.with' CHILDREN
          (RtValue.array ((xs.set c.toNat st).map RtValue.int)))
        c len).remove CHILDREN).find CHILDREN = none) := by
  have hcore := finalize_parallel_core args res c len st xs hc hc0 hfind hcl hsz hlen hst
  have hst2 : st = 2 ∨ st = 3 := by
    cases res with
    | Failure v => exact Or.inl (by simpa using hst)
    | Success => exact Or.inr (by simpa using hst)
  refine ⟨?_, ?_, ?_, ?_⟩
  · intro hex
    cases hfp : find_pos_go (xs.set c.toNat st) (c.toNat + 1) xs.length with
    | none =>
      exfalso
      obtain ⟨i, hi1, hi2, hio⟩ := hex
      rw [List.length_set] at hi2
      exact find_pos_go_none (xs.set c.toNat st) xs.length (c.toNat + 1) xs.length
        (by omega) hfp i (by omega) hi2 hio
    | some j =>
      obtain ⟨hj1, hj2, hj3, hj4⟩ := find_pos_go_some (xs.set c.toNat st) xs.length
        (c.toNat + 1) xs.length j (by omega) hfp
      refine ⟨j, by omega, by rw [List.length_set]; exact hj2, hj3,
        fun i h1 h2 => hj4 i (by omega) h2, ?_⟩
      rw [hcore]
      simp only [hfp]
  · intro hno hex
    have hfpn : find_pos_go (xs.set c.toNat st) (c.toNat + 1) xs.length = none := by
      cases hfp : find_pos_go (xs.set c.toNat st) (c.toNat + 1) xs.length with
      | none => rfl
      | some j =>
        obtain ⟨hj1, hj2, hj3, _⟩ := find_pos_go_some (xs.set c.toNat st) xs.length
          (c.toNat + 1) xs.length j (by omega) hfp
        exact absurd hj3 (hno j (by omega) (by rw [List.length_set]; exact hj2))
    have hcont : ((xs.set c.toNat st).contains 1 || (xs.set c.toNat st).contains 0)
        = true := by
      obtain ⟨i, hi, hio⟩ := hex
      rw [Bool.or_eq_true]
      cases hio with
      | inl h0 =>
        exact Or.inr ((contains_int_iff _ _).mpr ⟨i, hi, h0⟩)
      | inr h1 =>
        exact Or.inl ((contains_int_iff _ _).mpr ⟨i, hi, h1⟩)
    cases hfp2 : find_pos_go (xs.set c.toNat st) 0 c.toNat with
    | none =>
      exfalso
      have hnolow := find_pos_go_none (xs.set c.toNat st) c.toNat 0 c.toNat
        (by omega) hfp2
      obtain ⟨i, hi, hio⟩ := hex
      have hcnot : ¬((xs.set c.toNat st).getD c.toNat (-1) = 0 ∨
          (xs.set c.toNat st).getD c.toNat (-1) = 1) := by
        rw [getD_set_self xs c.toNat st hcl]
        rcases hst2 with rfl | rfl
        · omega
        · omega
      rcases Nat.lt_trichotomy i c.toNat with hlt | heq | hgt
      · exact hnolow i (by omega) hlt hio
      · exact hcnot (heq ▸ hio)
      · exact hno i hgt hi hio
    | some j =>
      obtain ⟨hj0, hj2, hj3, hj4⟩ := find_pos_go_some (xs.set c.toNat st) c.toNat
        0 c.toNat j (by omega) hfp2
      refine ⟨j, by rw [List.length_set]; omega, hj3,
        fun i h2 => hj4 i (by omega) h2, ?_, ?_, ?_⟩
      · rw [hcore]
        simp only [hfpn]
        rw [if_pos hcont]
        simp only [hfp2, Option.getD_some]
      · rw [RtArgs.find_with_self]
      · rw [RtArgs.find_with_ne _ _ _ _ (by decide), run_with_find_cursor]
  · intro hno hex2
    have hfpn : find_pos_go (xs.set c.toNat st) (c.toNat + 1) xs.length = none := by
      cases hfp : find_pos_go (xs.set c.toNat st) (c.toNat + 1) xs.length with
      | none => rfl
      | some j =>
        obtain ⟨hj1, hj2, hj3, _⟩ := find_pos_go_some (xs.set c.toNat st) xs.length
          (c.toNat + 1) xs.length j (by omega) hfp
        exact absurd hj3 (hno j (by rw [List.length_set]; exact hj2))
    have h1f : (xs.set c.toNat st).contains 1 = false := by
      cases hcc : (xs.set c.toNat st).contains 1 with
      | false => rfl
      | true =>
        obtain ⟨i, hi, he⟩ := (contains_int_iff _ _).mp hcc
        exact absurd (Or.inr he) (hno i hi)
    have h0f : (xs.set c.toNat st).contains 0 = false := by
      cases hcc : (xs.set c.toNat st).contains 0 with
      | false => rfl
      | true =>
        obtain ⟨i, hi, he⟩ := (contains_int_iff _ _).mp hcc
        exact absurd (Or.inl he) (hno i hi)
    have h2t : (xs.set c.toNat st).contains 2 = true := by
      obtain ⟨i, hi, he⟩ := hex2
      exact (contains_int_iff _ _).mpr ⟨i, hi, he⟩
    have hcf : ¬(((xs.set c.toNat st).contains 1 ||
        (xs.set c.toNat st).contains 0) = true) := by
      rw [h1f, h0f]
      decide
    refine ⟨?_, ?_, ?_⟩
    · rw [hcore]
      simp only [hfpn]
      rw [if_neg hcf, if_pos h2t]
    · rw [RtArgs.find_remove_ne _ _ _ (by decide), RtArgs.find_with_self]
    · rw [RtArgs.find_remove_self]
  · intro hall
    have hno : ∀ i, i < (xs.set c.toNat st).length →
        ¬((xs.set c.toNat st).getD i (-1) = 0 ∨ (xs.set c.toNat st).getD i (-1) = 1) := by
      intro i hi
      rw [hall i hi]
      omega
    have hfpn : find_pos_go (xs.set c.toNat st) (c.toNat + 1) xs.length = none := by
      cases hfp : find_pos_go (xs.set c.toNat st) (c.toNat + 1) xs.length with
      | none => rfl
      | some j =>
        obtain ⟨hj1, hj2, hj3, _⟩ := find_pos_go_some (xs.set c.toNat st) xs.length
          (c.toNat + 1) xs.length j (by omega) hfp
        exact absurd hj3 (hno j (by rw [List.length_set]; exact hj2))
    have h1f : (xs.set c.toNat st).contains 1 = false := by
      cases hcc : (xs.set c.toNat st).contains 1 with
      | false => rfl
      | true =>
        obtain ⟨i, hi, he⟩ := (contains_int_iff _ _).mp hcc
        exact absurd (Or.inr he) (hno i hi)
    have h0f : (xs.set c.toNat st).contains 0 = false := by
      cases hcc : (xs.set c.toNat st).contains 0 with
      | false => rfl
      | true =>
        obtain ⟨i, hi, he⟩ := (contains_int_iff _ _).mp hcc
        exact absurd (Or.inl he) (hno i hi)
    have h2f : (xs.set c.toNat st).contains 2 = false := by
      cases hcc : (xs.set c.toNat st).contains 2 with
      | false => rfl
      | true =>
        obtain ⟨i, hi, he⟩ := (contains_int_iff _ _).mp hcc
        have := hall i hi
        omega
    have hcf : ¬(((xs.set c.toNat st).contains 1 ||
        (xs.set c.toNat st).contains 0) = true) := by
      rw [h1f, h0f]
      decide
    have hcf2 : ¬((xs.set c.toNat st).contains 2 = true) := by
      rw [h2f]
      decide
    refine ⟨?_, ?_⟩
    · rw [hcore]
      simp only [hfpn]
      rw [if_neg hcf, if_neg hcf2]
    · rw [RtArgs.find_remove_self]

/-- Witness for C1: a concrete `Parallel` with `children = [1, 3, 0]`,
`cursor = 1`, child success; the scan finds index 2 above the cursor. -/
theorem finalize_parallel_spec_witness :
    (∃ i, (1 : Int).toNat < i ∧ i < (([1, 3, 0] : List Int).set (1 : Int).toNat 3).length ∧
      ((([1, 3, 0] : List Int).set (1 : Int).toNat 3).getD i (-1) = 0 ∨
        (([1, 3, 0] : List Int).set (1 : Int).toNat 3).getD i (-1) = 1)) ∧
    (∃ j, (1 : Int).toNat < j ∧
      j < (([1, 3, 0] : List Int).set (1 : Int).toNat 3).length ∧
      ((([1, 3, 0] : List Int).set (1 : Int).toNat 3).getD j (-1) = 0 ∨
        (([1, 3, 0] : List Int).set (1 : Int).toNat 3).getD j (-1) = 1) ∧
      (∀ i, (1 : Int).toNat < i → i < j →
        ¬((([1, 3, 0] : List Int).set (1 : Int).toNat 3).getD i (-1) = 0 ∨
          (([1, 3, 0] : List Int).set (1 : Int).toNat 3).getD i (-1) = 1)) ∧
      finalize FlowType.Parallel
          (RtArgs.mk [(CURSOR, RtValue.int 1), (LEN, RtValue.int 3),
            (CHILDREN, RtValue.array [RtValue.int 1, RtValue.int 3, RtValue.int 0])])
          TickResultFin.Success
        = some (Except.ok (FlowDecision.Stay (RNodeState.Running
            (((RtArgs.mk [(CURSOR, RtValue.int 1), (LEN, RtValue.int 3),
                (CHILDREN, RtValue.array [RtValue.int 1, RtValue.int 3,
                  RtValue.int 0])]).with' CHILDREN
              (RtValue.array ((([1, 3, 0] : List Int).set (1 : Int).toNat 3).map
                RtValue.int))).with' CURSOR (RtValue.int (j : Int))))))) :=
  ⟨⟨2, by decide, by decide, by decide⟩,
    (finalize_parallel_spec
      (RtArgs.mk [(CURSOR, RtValue.int 1), (LEN, RtValue.int 3),
        (CHILDREN, RtValue.array [RtValue.int 1, RtValue.int 3, RtValue.int 0])])
      TickResultFin.Success 1 3 3 ([1, 3, 0] : List Int)
      rfl (by decide) rfl (by decide) (by decide) rfl rfl).1
      ⟨2, by decide, by decide, by decide⟩⟩

/-- A successful `replace_child_state` leaves a readable `children` array. -/
theorem read_children_after_replace (a : RtArgs) (idx : Nat) (v : Int) (t : RtArgs)
    (h : replace_child_state a idx v = some t) :
    ∃ l : List Int, read_children_state t = some l := by
  unfold replace_child_state at h
  cases hr : read_children_state a with
  | none =>
    simp only [hr] at h
    cases h
  | some elems =>
    simp only [hr] at h
    by_cases hlt : idx < elems.length
    · rw [if_pos hlt] at h
      have ht : t = a.with' CHILDREN (RtValue.array ((elems.set idx v).map RtValue.int)) := by
        injection h with h1
        exact h1.symm
      rw [ht]
      refine ⟨elems.set idx v, ?_⟩
      unfold read_children_state
      rw [RtArgs.find_with_self]
      exact mapM_as_int_map _
    · rw [if_neg hlt] at h
      cases h

/-- `replace_child_state` succeeds exactly when the args hold a `children`
entry that is an all-integer array longer than the index. -/
theorem replace_child_state_isSome_iff (a : RtArgs) (idx : Nat) (v : Int) :
    (replace_child_state a idx v).isSome = true ↔
      ∃ xs : List Int, a.find CHILDREN = some (RtValue.array (xs.map RtValue.int)) ∧
        idx < xs.length := by
  cases hfind0 : a.find CHILDREN with
  | none =>
    have hr : read_children_state a = some [] := by
      unfold read_children_state
      rw [hfind0]
    unfold replace_child_state
    simp only [hr]
    constructor
    · intro h
      rw [if_neg (by simp : ¬ idx < ([] : List Int).length)] at h
      simp at h
    · rintro ⟨xs, hx, _⟩
      cases hx
  | some v0 =>
    cases v0 with
    | array ys =>
      cases hm : ys.mapM RtValue.as_int with
      | none =>
        have hr : read_children_state a = none := by
          unfold read_children_state
          rw [hfind0]
          exact hm
        unfold replace_child_state
        simp only [hr]
        constructor
        · intro h
          simp at h
        · rintro ⟨xs, hx, _⟩
          have hx' : ys = xs.map RtValue.int := by
            simpa using hx
          rw [hx', mapM_as_int_map] at hm
          cases hm
      | some l =>
        have hys : ys = l.map RtValue.int := mapM_as_int_eq_some ys l hm
        have hr : read_children_state a = some l := by
          unfold read_children_state
          rw [hfind0]
          exact hm
        unfold replace_child_state
        simp only [hr]
        constructor
        · intro h
          by_cases hlt : idx < l.length
          · exact ⟨l, by rw [hys], hlt⟩
          · rw [if_neg hlt] at h
            simp at h
        · rintro ⟨xs, hx, hlt⟩
          rw [hys] at hx
          have hinj : Function.Injective RtValue.int := fun a b h => by
            injection h
          have hmaps : l.map RtValue.int = xs.map RtValue.int := by
            simpa using hx
          have hxl : l = xs := List.map_injective_iff.mpr hinj hmaps
          rw [if_pos (by rw [hxl]; exact hlt)]
          rfl
    | int w =>
      have hr : read_children_state a = some [] := by
        unfold read_children_state
        rw [hfind0]
      unfold replace_child_state
      simp only [hr]
      constructor
      · intro h
        rw [if_neg (by simp : ¬ idx < ([] : List Int).length)] at h
        simp at h
      · rintro ⟨xs, hx, _⟩
        simp at hx
    | str q =>
      have hr : read_children_state a = some [] := by
        unfold read_children_state
        rw [hfind0]
      unfold replace_child_state
      simp only [hr]
      constructor
      · intro h
        rw [if_neg (by simp : ¬ idx < ([] : List Int).length)] at h
        simp at h
      · rintro ⟨xs, hx, _⟩
        simp at hx
    | bool b =>
      have hr : read_children_state a = some [] := by
        unfold read_children_state
        rw [hfind0]
      unfold replace_child_state
      simp only [hr]
      constructor
      · intro h
        rw [if_neg (by simp : ¬ idx < ([] : List Int).length)] at h
        simp at h
      · rintro ⟨xs, hx, _⟩
        simp at hx

/-- `finalize` on a `Parallel` node panics exactly when `replace_child_state`
does: every later step is total. -/
theorem finalize_parallel_isSome (args : RtArgs) (res : TickResultFin) (c : Int)
    (hc : read_cursor args = Except.ok c) :
    (finalize FlowType.Parallel args res).isSome
      = (replace_child_state args (i64_to_usize c)
          (match res with
            | TickResultFin.Failure _ => 2
            | TickResultFin.Success => 3)).isSome := by
  cases res with
  | Failure v =>
    simp only [finalize, hc]
    cases hrep : replace_child_state args (i64_to_usize c) 2 with
    | none => simp only [hrep, Option.isSome_none]
    | some t =>
      obtain ⟨l, hl⟩ := read_children_after_replace args (i64_to_usize c) 2 t hrep
      simp only [hrep, hl]
      cases hfn : find_next_idx l c with
      | some idx => simp only [hfn, Option.isSome_some]
      | none =>
        simp only [hfn]
        by_cases hb : (l.contains 1 || l.contains 0) = true
        · rw [if_pos hb]
          rfl
        · rw [if_neg hb]
          by_cases hb2 : l.contains 2 = true
          · rw [if_pos hb2]
            rfl
          · rw [if_neg hb2]
            rfl
  | Success =>
    simp only [finalize, hc]
    cases hrep : replace_child_state args (i64_to_usize c) 3 with
    | none => simp only [hrep, Option.isSome_none]
    | some t =>
      obtain ⟨l, hl⟩ := read_children_after_replace args (i64_to_usize c) 3 t hrep
      simp only [hrep, hl]
      cases hfn : find_next_idx l c with
      | some idx => simp only [hfn, Option.isSome_some]
      | none =>
        simp only [hfn]
        by_cases hb : (l.contains 1 || l.contains 0) = true
        · rw [if_pos hb]
          rfl
        · rw [if_neg hb]
          by_cases hb2 : l.contains 2 = true
          · rw [if_pos hb2]
            rfl
          · rw [if_neg hb2]
            rfl

/-- `monitor` on a `Parallel` node panics exactly when `replace_child_state`
does. -/
theorem monitor_parallel_isSome (args : RtArgs) (c : Int)
    (hc : read_cursor args = Except.ok c) :
    (monitor FlowType.Parallel args).isSome
      = (replace_child_state (args.with' P_CURSOR (RtValue.int c))
          (i64_to_usize c) 1).isSome := by
  simp only [monitor, hc]
  cases hrep : replace_child_state (args.with' P_CURSOR (RtValue.int c))
      (i64_to_usize c) 1 with
  | none => simp only [hrep, Option.isSome_none]
  | some t =>
    obtain ⟨l, hl⟩ := read_children_after_replace _ (i64_to_usize c) 1 t hrep
    simp only [hrep, hl]
    cases hfn : find_next_idx l c with
    | some idx => simp only [hfn, Option.isSome_some]
    | none => simp only [hfn, Option.isSome_some]

/-- **C10**: `finalize` and `monitor` on a `Parallel` node are panic-free
exactly when the node's args carry a `children` entry that is an array of
integer values whose length exceeds the current cursor; otherwise the call
panics (models as `none`) instead of returning a `RuntimeError`. -/
theorem parallel_totality_spec (args : RtArgs) (res : TickResultFin) (c : Int)
    (hc : read_cursor args = Except.ok c) (hc0 : 0 ≤ c) (hcb : c < 2 ^ 63) :
    ((finalize FlowType.Parallel args res).isSome = true ↔
      (∃ xs : List Int,
        args.find CHILDREN = some (RtValue.array (xs.map RtValue.int)) ∧
        c.toNat < xs.length)) ∧
    ((monitor FlowType.Parallel args).isSome = true ↔
      (∃ xs : List Int,
        args.find CHILDREN = some (RtValue.array (xs.map RtValue.int)) ∧
        c.toNat < xs.length)) := by
  have hiu : i64_to_usize c = c.toNat := i64_to_usize_of_nonneg c hc0 (by omega)
  constructor
  · rw [finalize_parallel_isSome args res c hc, hiu]
    exact replace_child_state_isSome_iff args c.toNat _
  · rw [monitor_parallel_isSome args c hc, hiu]
    have hiff := replace_child_state_isSome_iff (args.with' P_CURSOR (RtValue.int c))
      c.toNat 1
    rw [RtArgs.find_with_ne _ _ _ _ (by decide)] at hiff
    exact hiff

/-- Witness for C10: with `children = [0]` and cursor 0 both calls are total;
the right-hand side is witnessed by `[0]`. -/
theorem parallel_totality_spec_witness :
    ((finalize FlowType.Parallel
        (RtArgs.mk [(CHILDREN, RtValue.array [RtValue.int 0])])
        TickResultFin.Success).isSome = true ↔
      (∃ xs : List Int,
        (RtArgs.mk [(CHILDREN, RtValue.array [RtValue.int 0])]).find CHILDREN
          = some (RtValue.array (xs.map RtValue.int)) ∧
        (0 : Int).toNat < xs.length)) ∧
    ((monitor FlowType.Parallel
        (RtArgs.mk [(CHILDREN, RtValue.array [RtValue.int 0])])).isSome = true ↔
      (∃ xs : List Int,
        (RtArgs.mk [(CHILDREN, RtValue.array [RtValue.int 0])]).find CHILDREN
          = some (RtValue.array (xs.map RtValue.int)) ∧
        (0 : Int).toNat < xs.length)) :=
  parallel_totality_spec (RtArgs.mk [(CHILDREN, RtValue.array [RtValue.int 0])])
    TickResultFin.Success 0 rfl (by decide) (by decide)

end Golem
